import Mathlib

/-!
Shallow embedding of `typecheck.py` (the `optional_typecheck` decorator)
and verification of its specification.

The decorator inspects a callable's `__annotations__` dict, and on each
invocation of the returned wrapper:
  1. binds the supplied positional and keyword arguments to parameter
     names via `inspect.getcallargs` (which raises `TypeError` on a
     malformed argument list),
  2. checks each bound value whose parameter name has an entry in the
     annotation table with `isinstance`, raising `TypeError` on mismatch,
  3. calls the wrapped function with the original arguments,
  4. if the table has a `"return"` entry, checks the result with
     `isinstance`, raising `TypeError` on mismatch,
  5. returns the result.

Python runtime values are modelled as a type id plus a payload; the class
hierarchy (what `issubclass` answers) is a parameter of the model, since
the code delegates the subtype test to the host language's `isinstance`.
Python exceptions are modelled as a class name plus a message.  Side
effects of the wrapped function's body are modelled as a trace of opaque
events emitted during body execution, so that "the body never ran" is
expressible as an empty trace.
-/

set_option autoImplicit false

namespace PyTypecheck

/-- Runtime value: a type id (`type(v)` in Python) plus opaque payload data. -/
structure Value where
  ty : Nat
  data : Nat
deriving DecidableEq

/-- Python exception: its class (e.g. `TypeError`) and its message. -/
structure PyError where
  cls : String
  msg : String
deriving DecidableEq

/-- Opaque side-effect event emitted while a function body runs. -/
abbrev Effect := Nat

/-- Declared parameter of a callable: a name and an optional default value. -/
structure Param where
  name : String
  dflt : Option Value
deriving DecidableEq

/-- Call-time binding: declared parameter name to the value bound for this call
(the result of `inspect.getcallargs`), in parameter declaration order. -/
abbrev Bindings := List (String × Value)

/-- Annotation table: parameter name (or the sentinel `"return"`) to declared
type id.  This is the model of the callable's `__annotations__` dict. -/
abbrev AnnTable := List (String × Nat)

/-- Callable: an ordered parameter list, an annotation table, and a body.
The body consumes the call-time binding and yields the trace of side
effects it emitted together with a normal result or a raised exception. -/
structure PyFunction where
  params : List Param
  anns : AnnTable
  body : Bindings → List Effect × Except PyError Value

/-- Class-hierarchy environment: `issub a b` answers Python's
`issubclass(a, b)` for type ids `a` and `b`. -/
structure TypeEnv where
  issub : Nat → Nat → Bool

/-- Python's `isinstance(v, t)`: the value's runtime type is `t` or a
subtype of `t` (for a class `t`, `issubclass` is reflexive). -/
def isinstance (env : TypeEnv) (v : Value) (t : Nat) : Bool :=
  env.issub v.ty t

/-- Lookup in an association list with string keys (dict lookup). -/
def lookupStr {α : Type} : List (String × α) → String → Option α
  | [], _ => none
  | (k, v) :: rest, key => if k = key then some v else lookupStr rest key

/-- Rendering of a type id in an error message (`repr` of a class). -/
def showType (t : Nat) : String :=
  "<class " ++ toString t ++ ">"

/-- Message of the `TypeError` raised by `getcallargs` when more positional
arguments are supplied than the callable declares. -/
def mkTooManyError (nparams nargs : Nat) : PyError :=
  ⟨"TypeError", "takes " ++ toString nparams ++ " positional arguments but "
    ++ toString nargs ++ " were given"⟩

/-- Message of the `TypeError` raised by `getcallargs` for a keyword argument
that names no declared parameter. -/
def mkUnexpectedKwError (k : String) : PyError :=
  ⟨"TypeError", "got an unexpected keyword argument '" ++ k ++ "'"⟩

/-- Message of the `TypeError` raised by `getcallargs` when an argument is
bound more than once. -/
def mkMultipleValuesError (k : String) : PyError :=
  ⟨"TypeError", "got multiple values for argument '" ++ k ++ "'"⟩

/-- Message of the `TypeError` raised by `getcallargs` for a required
parameter that received no value. -/
def mkMissingError (k : String) : PyError :=
  ⟨"TypeError", "missing a required argument: '" ++ k ++ "'"⟩

/-- The `TypeError` raised at line 72 of `typecheck.py` for a parameter
whose bound value fails the `isinstance` check. -/
def mkArgError (name : String) (expected actual : Nat) : PyError :=
  ⟨"TypeError", "Expected argument '" ++ name ++ "' of type " ++ showType expected
    ++ " but got " ++ showType actual ++ "."⟩

/-- The `TypeError` raised at line 78 of `typecheck.py` for a return value
that fails the `isinstance` check. -/
def mkRetError (expected actual : Nat) : PyError :=
  ⟨"TypeError", "Expected return of type " ++ showType expected
    ++ " but got " ++ showType actual ++ "."⟩

/-- Names of the declared parameters, in declaration order. -/
def paramNames (ps : List Param) : List String :=
  ps.map Param.name

/-- Keyword-argument pass of `getcallargs`: each keyword must name a declared
parameter (else `TypeError`: unexpected keyword) that is not already bound
(else `TypeError`: multiple values); on success it is appended to the
assignment. -/
def applyKwargs (pnames : List String) (assigned : List (String × Value)) :
    List (String × Value) → Except PyError (List (String × Value))
  | [] => .ok assigned
  | (k, v) :: rest =>
    if k ∈ pnames then
      if k ∈ assigned.map Prod.fst then
        .error (mkMultipleValuesError k)
      else
        applyKwargs pnames (assigned ++ [(k, v)]) rest
    else
      .error (mkUnexpectedKwError k)

/-- Final pass of `getcallargs`: every declared parameter takes its assigned
value, or its default when it has one, else `TypeError`: missing argument.
The resulting binding lists parameters in declaration order. -/
def bindParams (assigned : List (String × Value)) :
    List Param → Except PyError Bindings
  | [] => .ok []
  | p :: rest =>
    match lookupStr assigned p.name with
    | some v => (bindParams assigned rest).map (fun bs => (p.name, v) :: bs)
    | none =>
      match p.dflt with
      | some v => (bindParams assigned rest).map (fun bs => (p.name, v) :: bs)
      | none => .error (mkMissingError p.name)

/-- Model of `inspect.getcallargs(function, *args, **kwargs)` for a callable
with positional-or-keyword parameters: positional arguments are assigned to
parameter names in declaration order (`TypeError` when too many), keyword
arguments by name, defaults fill omitted parameters, and any failure is a
`TypeError` - the same failure conditions as calling the function directly. -/
def getcallargs (f : PyFunction) (args : List Value)
    (kwargs : List (String × Value)) : Except PyError Bindings :=
  if f.params.length < args.length then
    .error (mkTooManyError f.params.length args.length)
  else
    match applyKwargs (paramNames f.params) (List.zip (paramNames f.params) args) kwargs with
    | .error e => .error e
    | .ok assigned => bindParams assigned f.params

/-- Parameter-check loop of the wrapper (lines 69-72 of `typecheck.py`):
walk the binding; for each name present in the annotation table whose value
fails `isinstance`, produce the `TypeError` of line 72; `none` when every
checked parameter passes. -/
def checkParams (env : TypeEnv) (anns : AnnTable) : Bindings → Option PyError
  | [] => none
  | (name, val) :: rest =>
    match lookupStr anns name with
    | some t =>
      if isinstance env val t then checkParams env anns rest
      else some (mkArgError name t val.ty)
    | none => checkParams env anns rest

/-- Calling the unwrapped callable directly: bind the arguments (the host
language raises `TypeError` on a malformed argument list) and run the body. -/
def directCall (f : PyFunction) (args : List Value)
    (kwargs : List (String × Value)) : List Effect × Except PyError Value :=
  match getcallargs f args kwargs with
  | .error e => ([], .error e)
  | .ok binding => f.body binding

/-- The wrapper returned by `optional_typecheck` (lines 67-80 of
`typecheck.py`): bind the arguments with `getcallargs`, check each annotated
bound parameter, call the wrapped function with the original arguments,
check the result against the `"return"` annotation when present, and
return the result.  The effect trace records what the body emitted; a
failure before the body runs carries an empty trace. -/
def wrapperCall (env : TypeEnv) (f : PyFunction) (args : List Value)
    (kwargs : List (String × Value)) : List Effect × Except PyError Value :=
  match getcallargs f args kwargs with
  | .error e => ([], .error e)
  | .ok binding =>
    match checkParams env f.anns binding with
    | some e => ([], .error e)
    | none =>
      match directCall f args kwargs with
      | (effs, .error e) => (effs, .error e)
      | (effs, .ok result) =>
        match lookupStr f.anns "return" with
        | some t =>
          if isinstance env result t then (effs, .ok result)
          else (effs, .error (mkRetError t result.ty))
        | none => (effs, .ok result)

/-- Decidable equality for call outcomes, so that concrete runs of the model
can be settled by `decide`. -/
instance {ε α : Type} [DecidableEq ε] [DecidableEq α] : DecidableEq (Except ε α)
  | .ok a, .ok b =>
    if h : a = b then .isTrue (by rw [h]) else .isFalse (fun he => by cases he; exact h rfl)
  | .ok _, .error _ => .isFalse (fun he => by cases he)
  | .error _, .ok _ => .isFalse (fun he => by cases he)
  | .error a, .error b =>
    if h : a = b then .isTrue (by rw [h]) else .isFalse (fun he => by cases he; exact h rfl)

/-! ### Concrete fixtures

A small concrete class hierarchy and the three callables of the testsuite
at the bottom of `typecheck.py`, used to exercise the model on concrete
inputs.  Type ids: `0` is `int`, `1` is `str`, `2` is `bool` (a proper
subclass of `int`, as in Python), `3` is `dict`. -/

/-- Concrete environment: `issubclass` is reflexive, and `bool` (id 2) is a
proper subclass of `int` (id 0); no other subclass relations hold. -/
def env0 : TypeEnv :=
  ⟨fun a b => a == b || (a == 2 && b == 0)⟩

/-- An `int` value. -/
def intVal (n : Nat) : Value := ⟨0, n⟩

/-- A `str` value. -/
def strVal (n : Nat) : Value := ⟨1, n⟩

/-- A `bool` value (runtime type a proper subclass of `int`). -/
def boolVal (n : Nat) : Value := ⟨2, n⟩

/-- A `dict` value (compound type, as the testsuite passes for `qux`'s `y`). -/
def dictVal (n : Nat) : Value := ⟨3, n⟩

/-- Testsuite's `foo(x: int) -> str`: formats its argument as a string.
The body emits effect `10` when it runs. -/
def fooF : PyFunction where
  params := [⟨"x", none⟩]
  anns := [("x", 0), ("return", 1)]
  body := fun b =>
    match lookupStr b "x" with
    | some v => ([10], .ok (strVal v.data))
    | none => ([], .error ⟨"NameError", "x"⟩)

/-- Testsuite's `bar(x: int) -> int`: always returns a `str` (a deliberately
wrong-typed implementation).  The body emits effect `20` when it runs. -/
def barF : PyFunction where
  params := [⟨"x", none⟩]
  anns := [("x", 0), ("return", 0)]
  body := fun _ => ([20], .ok (strVal 99))

/-- Testsuite's `qux(x: int, y, z: int)`: `y` is unannotated and there is no
return annotation.  The body emits effect `30` when it runs. -/
def quxF : PyFunction where
  params := [⟨"x", none⟩, ⟨"y", none⟩, ⟨"z", none⟩]
  anns := [("x", 0), ("z", 0)]
  body := fun b =>
    match lookupStr b "x", lookupStr b "y", lookupStr b "z" with
    | some x, some y, some z => ([30], .ok (strVal (x.data + y.data + z.data)))
    | _, _, _ => ([], .error ⟨"NameError", "args"⟩)

example : wrapperCall env0 fooF [intVal 1] [] = ([10], .ok (strVal 1)) := by decide
example : wrapperCall env0 fooF [strVal 5] []
    = ([], .error (mkArgError "x" 0 1)) := by decide
example : wrapperCall env0 barF [intVal 1] [] = ([20], .error (mkRetError 0 1)) := by decide
example : wrapperCall env0 quxF [strVal 5, intVal 1, intVal 2] []
    = ([], .error (mkArgError "x" 0 1)) := by decide
example : wrapperCall env0 quxF [intVal 1, dictVal 7, intVal 3] []
    = ([30], .ok (strVal 11)) := by decide
example : wrapperCall env0 fooF [] [("x", intVal 4)] = ([10], .ok (strVal 4)) := by decide
example : wrapperCall env0 fooF [] [] = ([], .error (mkMissingError "x")) := by decide
example : wrapperCall env0 fooF [intVal 1, intVal 2] []
    = ([], .error (mkTooManyError 1 2)) := by decide
example : wrapperCall env0 fooF [intVal 1] [("x", intVal 2)]
    = ([], .error (mkMultipleValuesError "x")) := by decide
example : wrapperCall env0 fooF [intVal 1] [("w", intVal 2)]
    = ([], .error (mkUnexpectedKwError "w")) := by decide
example : wrapperCall env0 fooF [boolVal 1] [] = ([10], .ok (strVal 1)) := by decide

/-! ### Lemmas about lookup and the parameter-check loop -/

theorem lookupStr_eq_none_iff {α : Type} (l : List (String × α)) (k : String) :
    lookupStr l k = none ↔ k ∉ l.map Prod.fst := by
  induction l with
  | nil => simp [lookupStr]
  | cons p rest ih =>
    obtain ⟨k', v⟩ := p
    by_cases h : k' = k
    · subst h
      simp [lookupStr]
    · simp only [lookupStr, if_neg h, List.map_cons, List.mem_cons, ih]
      constructor
      · intro hn hor
        rcases hor with rfl | hm
        · exact h rfl
        · exact hn hm
      · intro hn hm
        exact hn (Or.inr hm)

theorem checkParams_eq_none_iff (env : TypeEnv) (anns : AnnTable) (b : Bindings) :
    checkParams env anns b = none ↔
      ∀ n v t, (n, v) ∈ b → lookupStr anns n = some t → isinstance env v t = true := by
  induction b with
  | nil => simp [checkParams]
  | cons p rest ih =>
    obtain ⟨n, v⟩ := p
    cases h : lookupStr anns n with
    | none =>
      simp only [checkParams, h]
      rw [ih]
      constructor
      · intro H n' v' t' hmem hl
        rcases List.mem_cons.mp hmem with heq | hmem'
        · obtain ⟨rfl, rfl⟩ := Prod.mk.injEq .. |>.mp heq
          rw [h] at hl
          exact Option.noConfusion hl
        · exact H n' v' t' hmem' hl
      · intro H n' v' t' hmem hl
        exact H n' v' t' (List.mem_cons_of_mem _ hmem) hl
    | some t =>
      by_cases hi : isinstance env v t = true
      · simp only [checkParams, h, hi, if_true]
        rw [ih]
        constructor
        · intro H n' v' t' hmem hl
          rcases List.mem_cons.mp hmem with heq | hmem'
          · obtain ⟨rfl, rfl⟩ := Prod.mk.injEq .. |>.mp heq
            rw [h] at hl
            injection hl with ht
            rw [← ht]
            exact hi
          · exact H n' v' t' hmem' hl
        · intro H n' v' t' hmem hl
          exact H n' v' t' (List.mem_cons_of_mem _ hmem) hl
      · simp only [checkParams, h, hi, if_false]
        apply iff_of_false
        · simp
        · intro H
          exact hi (H n v t (List.mem_cons_self _ _) h)

theorem checkParams_eq_some (env : TypeEnv) (anns : AnnTable) (b : Bindings) (e : PyError)
    (h : checkParams env anns b = some e) :
    ∃ n v t, (n, v) ∈ b ∧ lookupStr anns n = some t ∧ isinstance env v t = false
      ∧ e = mkArgError n t v.ty := by
  induction b with
  | nil => simp [checkParams] at h
  | cons p rest ih =>
    obtain ⟨n, v⟩ := p
    cases hl : lookupStr anns n with
    | none =>
      simp only [checkParams, hl] at h
      obtain ⟨n', v', t', hm, hlk, hi, he⟩ := ih h
      exact ⟨n', v', t', List.mem_cons_of_mem _ hm, hlk, hi, he⟩
    | some t =>
      by_cases hi : isinstance env v t = true
      · simp only [checkParams, hl, hi, if_true] at h
        obtain ⟨n', v', t', hm, hlk, hi', he⟩ := ih h
        exact ⟨n', v', t', List.mem_cons_of_mem _ hm, hlk, hi', he⟩
      · simp only [checkParams, hl, hi, if_false] at h
        injection h with he
        exact ⟨n, v, t, List.mem_cons_self _ _, hl,
          Bool.eq_false_iff.mpr hi, he.symm⟩

/-- Shared core of the parameter-mismatch claims: when some bound annotated
parameter fails its `isinstance` check, the wrapper stops before the body
runs (empty effect trace) with the line-72 `TypeError` naming a mismatching
parameter, its expected type and the value's actual runtime type. -/
theorem wrapper_fails_of_param_mismatch (env : TypeEnv) (f : PyFunction)
    (args : List Value) (kwargs : List (String × Value)) (binding : Bindings)
    (n : String) (v : Value) (t : Nat)
    (hbind : getcallargs f args kwargs = .ok binding)
    (hmem : (n, v) ∈ binding)
    (hann : lookupStr f.anns n = some t)
    (hbad : isinstance env v t = false) :
    ∃ n' v' t', (n', v') ∈ binding ∧ lookupStr f.anns n' = some t'
      ∧ isinstance env v' t' = false
      ∧ wrapperCall env f args kwargs = ([], .error (mkArgError n' t' v'.ty)) := by
  cases hcp : checkParams env f.anns binding with
  | none =>
    have := (checkParams_eq_none_iff env f.anns binding).mp hcp n v t hmem hann
    rw [this] at hbad
    exact Bool.noConfusion hbad
  | some e =>
    obtain ⟨n', v', t', hm, hlk, hi, rfl⟩ := checkParams_eq_some env f.anns binding e hcp
    refine ⟨n', v', t', hm, hlk, hi, ?_⟩
    unfold wrapperCall
    rw [hbind]
    dsimp only
    rw [hcp]

theorem directCall_eq_body (f : PyFunction) (args : List Value)
    (kwargs : List (String × Value)) (binding : Bindings)
    (hbind : getcallargs f args kwargs = .ok binding) :
    directCall f args kwargs = f.body binding := by
  unfold directCall
  rw [hbind]

theorem wrapper_of_body_error (env : TypeEnv) (f : PyFunction) (args : List Value)
    (kwargs : List (String × Value)) (binding : Bindings) (effs : List Effect) (e : PyError)
    (hbind : getcallargs f args kwargs = .ok binding)
    (hcp : checkParams env f.anns binding = none)
    (hbody : f.body binding = (effs, .error e)) :
    wrapperCall env f args kwargs = (effs, .error e) := by
  unfold wrapperCall
  rw [hbind]
  dsimp only
  rw [hcp]
  dsimp only
  rw [directCall_eq_body f args kwargs binding hbind, hbody]

theorem wrapper_of_body_ok (env : TypeEnv) (f : PyFunction) (args : List Value)
    (kwargs : List (String × Value)) (binding : Bindings) (effs : List Effect) (r : Value)
    (hbind : getcallargs f args kwargs = .ok binding)
    (hcp : checkParams env f.anns binding = none)
    (hbody : f.body binding = (effs, .ok r))
    (hret : ∀ t, lookupStr f.anns "return" = some t → isinstance env r t = true) :
    wrapperCall env f args kwargs = (effs, .ok r) := by
  unfold wrapperCall
  rw [hbind]
  dsimp only
  rw [hcp]
  dsimp only
  rw [directCall_eq_body f args kwargs binding hbind, hbody]
  dsimp only
  cases hl : lookupStr f.anns "return" with
  | none => rfl
  | some t =>
    dsimp only
    rw [hret t hl]
    rfl

theorem wrapper_of_ret_mismatch (env : TypeEnv) (f : PyFunction) (args : List Value)
    (kwargs : List (String × Value)) (binding : Bindings) (effs : List Effect)
    (r : Value) (t : Nat)
    (hbind : getcallargs f args kwargs = .ok binding)
    (hcp : checkParams env f.anns binding = none)
    (hbody : f.body binding = (effs, .ok r))
    (hret : lookupStr f.anns "return" = some t)
    (hbad : isinstance env r t = false) :
    wrapperCall env f args kwargs = (effs, .error (mkRetError t r.ty)) := by
  unfold wrapperCall
  rw [hbind]
  dsimp only
  rw [hcp]
  dsimp only
  rw [directCall_eq_body f args kwargs binding hbind, hbody]
  dsimp only
  rw [hret]
  dsimp only
  rw [hbad]
  rfl

/-! ### Lemmas about the argument-binding pass -/

theorem map_fst_zip_take {α β : Type} (l2 : List β) (l1 : List α)
    (h : l2.length ≤ l1.length) :
    (List.zip l1 l2).map Prod.fst = l1.take l2.length := by
  induction l2 generalizing l1 with
  | nil => simp
  | cons b rest ih =>
    cases l1 with
    | nil => simp at h
    | cons a l1 =>
      simp only [List.zip_cons_cons, List.map_cons, List.length_cons, List.take_succ_cons]
      rw [ih l1 (by simpa using h)]

theorem exceptMap_error_iff {α β : Type} (f : α → β) (x : Except PyError α) (e : PyError) :
    x.map f = .error e ↔ x = .error e := by
  cases x <;> simp [Except.map]

theorem exceptMap_eq_ok {α β : Type} (f : α → β) (x : Except PyError α) (b : β)
    (h : x.map f = .ok b) : ∃ a, x = .ok a ∧ b = f a := by
  cases x with
  | error e => simp [Except.map] at h
  | ok a => exact ⟨a, rfl, by simpa [Except.map] using h.symm⟩

theorem applyKwargs_ok_names (pnames : List String) (kwargs : List (String × Value))
    (assigned assigned' : List (String × Value))
    (h : applyKwargs pnames assigned kwargs = .ok assigned') :
    assigned'.map Prod.fst = assigned.map Prod.fst ++ kwargs.map Prod.fst := by
  induction kwargs generalizing assigned with
  | nil =>
    simp only [applyKwargs] at h
    injection h with h
    subst h
    simp
  | cons kv rest ih =>
    obtain ⟨k, v⟩ := kv
    simp only [applyKwargs] at h
    by_cases hk : k ∈ pnames
    · rw [if_pos hk] at h
      by_cases hd : k ∈ assigned.map Prod.fst
      · rw [if_pos hd] at h
        exact Except.noConfusion h
      · rw [if_neg hd] at h
        have := ih (assigned ++ [(k, v)]) h
        rw [this]
        simp
    · rw [if_neg hk] at h
      exact Except.noConfusion h

theorem applyKwargs_ok_sound (pnames : List String) (kwargs : List (String × Value))
    (assigned assigned' : List (String × Value))
    (h : applyKwargs pnames assigned kwargs = .ok assigned') :
    ∀ k ∈ kwargs.map Prod.fst, k ∈ pnames ∧ k ∉ assigned.map Prod.fst := by
  induction kwargs generalizing assigned with
  | nil => simp
  | cons kv rest ih =>
    obtain ⟨k, v⟩ := kv
    simp only [applyKwargs] at h
    by_cases hk : k ∈ pnames
    · rw [if_pos hk] at h
      by_cases hd : k ∈ assigned.map Prod.fst
      · rw [if_pos hd] at h
        exact Except.noConfusion h
      · rw [if_neg hd] at h
        intro k' hk'
        simp only [List.map_cons, List.mem_cons] at hk'
        rcases hk' with rfl | hk'
        · exact ⟨hk, hd⟩
        · have := ih (assigned ++ [(k, v)]) h k' hk'
          refine ⟨this.1, fun hmem => this.2 ?_⟩
          simp [hmem]
    · rw [if_neg hk] at h
      exact Except.noConfusion h

theorem applyKwargs_error_witness (pnames : List String) (kwargs : List (String × Value))
    (assigned : List (String × Value)) (e : PyError)
    (hnd : (kwargs.map Prod.fst).Nodup)
    (h : applyKwargs pnames assigned kwargs = .error e) :
    ∃ k ∈ kwargs.map Prod.fst, k ∉ pnames ∨ k ∈ assigned.map Prod.fst := by
  induction kwargs generalizing assigned with
  | nil => simp [applyKwargs] at h
  | cons kv rest ih =>
    obtain ⟨k, v⟩ := kv
    rw [List.map_cons, List.nodup_cons] at hnd
    obtain ⟨hkn, hnd'⟩ := hnd
    simp only [applyKwargs] at h
    by_cases hk : k ∈ pnames
    · rw [if_pos hk] at h
      by_cases hd : k ∈ assigned.map Prod.fst
      · exact ⟨k, by simp, Or.inr hd⟩
      · rw [if_neg hd] at h
        obtain ⟨k', hk', hor⟩ := ih (assigned ++ [(k, v)]) hnd' h
        refine ⟨k', by simp [hk'], ?_⟩
        rcases hor with hnp | hmem
        · exact Or.inl hnp
        · simp only [List.map_append, List.mem_append] at hmem
          rcases hmem with hmem | hmem
          · exact Or.inr hmem
          · simp at hmem
            subst hmem
            exact absurd hk' hkn
    · exact ⟨k, by simp, Or.inl hk⟩

theorem applyKwargs_ok_of (pnames : List String) (kwargs : List (String × Value))
    (assigned : List (String × Value))
    (hnd : (kwargs.map Prod.fst).Nodup)
    (H : ∀ k ∈ kwargs.map Prod.fst, k ∈ pnames ∧ k ∉ assigned.map Prod.fst) :
    ∃ a', applyKwargs pnames assigned kwargs = .ok a' := by
  induction kwargs generalizing assigned with
  | nil => exact ⟨assigned, rfl⟩
  | cons kv rest ih =>
    obtain ⟨k, v⟩ := kv
    rw [List.map_cons, List.nodup_cons] at hnd
    obtain ⟨hkn, hnd'⟩ := hnd
    obtain ⟨hk, hd⟩ := H k (by simp)
    simp only [applyKwargs, if_pos hk, if_neg hd]
    apply ih (assigned ++ [(k, v)]) hnd'
    intro k' hk'
    obtain ⟨h1, h2⟩ := H k' (by simp [hk'])
    refine ⟨h1, ?_⟩
    simp only [List.map_append, List.mem_append]
    rintro (hmem | hmem)
    · exact h2 hmem
    · simp at hmem
      subst hmem
      exact hkn hk'

theorem bindParams_error_iff (assigned : List (String × Value)) (ps : List Param) :
    (∃ e, bindParams assigned ps = .error e) ↔
      ∃ p ∈ ps, p.dflt = none ∧ p.name ∉ assigned.map Prod.fst := by
  induction ps with
  | nil => simp [bindParams]
  | cons p rest ih =>
    cases hl : lookupStr assigned p.name with
    | some v =>
      have hmem : p.name ∈ assigned.map Prod.fst := by
        by_contra hmm
        rw [← lookupStr_eq_none_iff] at hmm
        rw [hmm] at hl
        exact Option.noConfusion hl
      simp only [bindParams, hl]
      constructor
      · rintro ⟨e, he⟩
        rw [exceptMap_error_iff] at he
        obtain ⟨q, hq, h1, h2⟩ := ih.mp ⟨e, he⟩
        exact ⟨q, List.mem_cons_of_mem _ hq, h1, h2⟩
      · rintro ⟨q, hq, h1, h2⟩
        rcases List.mem_cons.mp hq with rfl | hq'
        · exact absurd hmem h2
        · obtain ⟨e, he⟩ := ih.mpr ⟨q, hq', h1, h2⟩
          exact ⟨e, (exceptMap_error_iff _ _ _).mpr he⟩
    | none =>
      have hnm : p.name ∉ assigned.map Prod.fst := (lookupStr_eq_none_iff _ _).mp hl
      cases hd : p.dflt with
      | some v =>
        simp only [bindParams, hl, hd]
        constructor
        · rintro ⟨e, he⟩
          rw [exceptMap_error_iff] at he
          obtain ⟨q, hq, h1, h2⟩ := ih.mp ⟨e, he⟩
          exact ⟨q, List.mem_cons_of_mem _ hq, h1, h2⟩
        · rintro ⟨q, hq, h1, h2⟩
          rcases List.mem_cons.mp hq with rfl | hq'
          · rw [hd] at h1
            exact Option.noConfusion h1
          · obtain ⟨e, he⟩ := ih.mpr ⟨q, hq', h1, h2⟩
            exact ⟨e, (exceptMap_error_iff _ _ _).mpr he⟩
      | none =>
        simp only [bindParams, hl, hd]
        constructor
        · intro _
          exact ⟨p, List.mem_cons_self _ _, hd, hnm⟩
        · intro _
          exact ⟨mkMissingError p.name, rfl⟩

theorem bindParams_mem_default (assigned : List (String × Value)) (ps : List Param)
    (bs : Bindings) (n : String) (v : Value)
    (h : bindParams assigned ps = .ok bs)
    (hp : (⟨n, some v⟩ : Param) ∈ ps)
    (hna : n ∉ assigned.map Prod.fst) :
    (n, v) ∈ bs := by
  induction ps generalizing bs with
  | nil => simp at hp
  | cons p rest ih =>
    rcases List.mem_cons.mp hp with rfl | hp'
    · have hl : lookupStr assigned n = none := (lookupStr_eq_none_iff _ _).mpr hna
      simp only [bindParams, hl] at h
      obtain ⟨bs', hb, rfl⟩ := exceptMap_eq_ok _ _ _ h
      exact List.mem_cons_self _ _
    · cases hl : lookupStr assigned p.name with
      | some w =>
        simp only [bindParams, hl] at h
        obtain ⟨bs', hb, rfl⟩ := exceptMap_eq_ok _ _ _ h
        exact List.mem_cons_of_mem _ (ih bs' hb hp')
      | none =>
        cases hd : p.dflt with
        | some w =>
          simp only [bindParams, hl, hd] at h
          obtain ⟨bs', hb, rfl⟩ := exceptMap_eq_ok _ _ _ h
          exact List.mem_cons_of_mem _ (ih bs' hb hp')
        | none =>
          simp only [bindParams, hl, hd] at h
          exact Except.noConfusion h

theorem applyKwargs_error_cls (pnames : List String) (kwargs : List (String × Value))
    (assigned : List (String × Value)) (e : PyError)
    (h : applyKwargs pnames assigned kwargs = .error e) : e.cls = "TypeError" := by
  induction kwargs generalizing assigned with
  | nil => simp [applyKwargs] at h
  | cons kv rest ih =>
    obtain ⟨k, v⟩ := kv
    simp only [applyKwargs] at h
    by_cases hk : k ∈ pnames
    · rw [if_pos hk] at h
      by_cases hd : k ∈ assigned.map Prod.fst
      · rw [if_pos hd] at h
        injection h with h
        subst h
        rfl
      · rw [if_neg hd] at h
        exact ih (assigned ++ [(k, v)]) h
    · rw [if_neg hk] at h
      injection h with h
      subst h
      rfl

theorem bindParams_error_cls (assigned : List (String × Value)) (ps : List Param)
    (e : PyError) (h : bindParams assigned ps = .error e) : e.cls = "TypeError" := by
  induction ps with
  | nil => simp [bindParams] at h
  | cons p rest ih =>
    cases hl : lookupStr assigned p.name with
    | some v =>
      simp only [bindParams, hl] at h
      rw [exceptMap_error_iff] at h
      exact ih h
    | none =>
      cases hd : p.dflt with
      | some v =>
        simp only [bindParams, hl, hd] at h
        rw [exceptMap_error_iff] at h
        exact ih h
      | none =>
        simp only [bindParams, hl, hd] at h
        injection h with h
        subst h
        rfl

theorem getcallargs_error_cls (f : PyFunction) (args : List Value)
    (kwargs : List (String × Value)) (e : PyError)
    (h : getcallargs f args kwargs = .error e) : e.cls = "TypeError" := by
  unfold getcallargs at h
  by_cases hlt : f.params.length < args.length
  · rw [if_pos hlt] at h
    injection h with h
    subst h
    rfl
  · rw [if_neg hlt] at h
    cases hak : applyKwargs (paramNames f.params) (List.zip (paramNames f.params) args) kwargs with
    | error e' =>
      rw [hak] at h
      injection h with h
      subst h
      exact applyKwargs_error_cls _ _ _ _ hak
    | ok assigned =>
      rw [hak] at h
      exact bindParams_error_cls _ _ _ h

/-- Failure conditions for argument binding as the spec words them, stated on
the declared signature: extra positional arguments beyond the signature, a
keyword argument naming no declared parameter, an argument bound more than
once (both positionally and by keyword), or a required argument (one with no
default) that receives no value. -/
def specBindingFailure (f : PyFunction) (args : List Value)
    (kwargs : List (String × Value)) : Prop :=
  f.params.length < args.length
    ∨ (∃ k ∈ kwargs.map Prod.fst, k ∉ paramNames f.params)
    ∨ (∃ k ∈ kwargs.map Prod.fst, k ∈ (paramNames f.params).take args.length)
    ∨ (∃ p ∈ f.params, p.dflt = none ∧ p.name ∉ (paramNames f.params).take args.length
        ∧ p.name ∉ kwargs.map Prod.fst)

theorem getcallargs_error_iff (f : PyFunction) (args : List Value)
    (kwargs : List (String × Value))
    (hnd : (kwargs.map Prod.fst).Nodup) :
    (∃ e, getcallargs f args kwargs = .error e) ↔ specBindingFailure f args kwargs := by
  unfold getcallargs specBindingFailure
  by_cases hlt : f.params.length < args.length
  · rw [if_pos hlt]
    exact iff_of_true ⟨_, rfl⟩ (Or.inl hlt)
  · rw [if_neg hlt]
    have hlen : args.length ≤ (paramNames f.params).length := by
      simp only [paramNames, List.length_map]
      omega
    have hzip := map_fst_zip_take args (paramNames f.params) hlen
    cases hak : applyKwargs (paramNames f.params) (List.zip (paramNames f.params) args) kwargs with
    | error e =>
      refine iff_of_true ⟨e, rfl⟩ ?_
      obtain ⟨k, hk, hor⟩ := applyKwargs_error_witness _ _ _ _ hnd hak
      rcases hor with hnp | hmem
      · exact Or.inr (Or.inl ⟨k, hk, hnp⟩)
      · rw [hzip] at hmem
        exact Or.inr (Or.inr (Or.inl ⟨k, hk, hmem⟩))
    | ok assigned =>
      have hsound := applyKwargs_ok_sound _ _ _ _ hak
      have hnames := applyKwargs_ok_names _ _ _ _ hak
      rw [hzip] at hnames
      constructor
      · rintro ⟨e, he⟩
        obtain ⟨p, hp, h1, h2⟩ := (bindParams_error_iff assigned f.params).mp ⟨e, he⟩
        rw [hnames] at h2
        simp only [List.mem_append] at h2
        push_neg at h2
        exact Or.inr (Or.inr (Or.inr ⟨p, hp, h1, h2.1, h2.2⟩))
      · intro hrhs
        rcases hrhs with hlt' | ⟨k, hk, hnp⟩ | ⟨k, hk, hmem⟩ | ⟨p, hp, h1, h2, h3⟩
        · exact absurd hlt' hlt
        · exact absurd (hsound k hk).1 hnp
        · have := (hsound k hk).2
          rw [hzip] at this
          exact absurd hmem this
        · refine (bindParams_error_iff assigned f.params).mpr ⟨p, hp, h1, ?_⟩
          rw [hnames]
          simp only [List.mem_append]
          rintro (hm | hm)
          · exact h2 hm
          · exact h3 hm

/-- When binding succeeds and a defaulted parameter is supplied neither
positionally nor by keyword, `getcallargs` binds its declared default value. -/
theorem getcallargs_default_mem (f : PyFunction) (args : List Value)
    (kwargs : List (String × Value)) (binding : Bindings) (n : String) (v : Value)
    (hbind : getcallargs f args kwargs = .ok binding)
    (hp : (⟨n, some v⟩ : Param) ∈ f.params)
    (hpos : n ∉ (paramNames f.params).take args.length)
    (hkw : n ∉ kwargs.map Prod.fst) :
    (n, v) ∈ binding := by
  unfold getcallargs at hbind
  by_cases hlt : f.params.length < args.length
  · rw [if_pos hlt] at hbind
    exact Except.noConfusion hbind
  · rw [if_neg hlt] at hbind
    have hlen : args.length ≤ (paramNames f.params).length := by
      simp only [paramNames, List.length_map]
      omega
    have hzip := map_fst_zip_take args (paramNames f.params) hlen
    cases hak : applyKwargs (paramNames f.params) (List.zip (paramNames f.params) args) kwargs with
    | error e =>
      rw [hak] at hbind
      exact Except.noConfusion hbind
    | ok assigned =>
      rw [hak] at hbind
      have hnames := applyKwargs_ok_names _ _ _ _ hak
      rw [hzip] at hnames
      apply bindParams_mem_default assigned f.params binding n v hbind hp
      rw [hnames]
      simp only [List.mem_append]
      rintro (hmem | hmem)
      · exact hpos hmem
      · exact hkw hmem

/-! ### Wrap-time capture of the annotation dict (line 65)

Line 65 of `typecheck.py`, `annotations = function.__annotations__`, binds
the wrapper's local variable to the very dict object stored on the function,
not to a copy of it.  To settle what that capture means under later changes,
the dict is modelled behind an address into a store: the function object
holds the address of its annotation dict, wrapping captures that address,
and the wrapper reads the store at the captured address on every call. -/

/-- Store of annotation dicts, indexed by address. -/
abbrev AnnStore := List (Nat × AnnTable)

/-- Read the dict at an address (an absent address reads as an empty dict). -/
def storeGet : AnnStore → Nat → AnnTable
  | [], _ => []
  | (a, d) :: rest, x => if a = x then d else storeGet rest x

/-- In-place dict update, the effect of `d[k] = t` on a dict `d`. -/
def dictSet : AnnTable → String → Nat → AnnTable
  | [], k, t => [(k, t)]
  | (k', t') :: rest, k, t =>
    if k' = k then (k, t) :: rest else (k', t') :: dictSet rest k t

/-- Mutate the dict stored at address `a` in place, the effect of
`F.__annotations__[k] = t`. -/
def storeSetItem : AnnStore → Nat → String → Nat → AnnStore
  | [], _, _, _ => []
  | (b, d) :: rest, a, k, t =>
    if b = a then (b, dictSet d k t) :: rest
    else (b, d) :: storeSetItem rest a k t

/-- Function object: holds the address of its `__annotations__` dict. -/
structure FunObj where
  annAddr : Nat

/-- Line 65 of `typecheck.py`: wrapping captures the function's current
annotation-dict reference (its address), not a copy of the dict's contents. -/
def captureAnnRef (f : FunObj) : Nat :=
  f.annAddr

/-- The wrapper of a callable whose annotation dict lives behind address
`captured` in store `s`: each call consults that dict's current contents. -/
def wrapperCallRef (env : TypeEnv) (s : AnnStore) (captured : Nat)
    (ps : List Param) (body : Bindings → List Effect × Except PyError Value)
    (args : List Value) (kwargs : List (String × Value)) :
    List Effect × Except PyError Value :=
  wrapperCall env ⟨ps, storeGet s captured, body⟩ args kwargs

theorem storeGet_storeSetItem_self (s : AnnStore) (a : Nat) (k : String) (t : Nat)
    (ha : a ∈ s.map Prod.fst) :
    storeGet (storeSetItem s a k t) a = dictSet (storeGet s a) k t := by
  induction s with
  | nil => simp at ha
  | cons p rest ih =>
    obtain ⟨b, d⟩ := p
    by_cases hb : b = a
    · subst hb
      simp [storeSetItem, storeGet]
    · simp only [List.map_cons, List.mem_cons] at ha
      rcases ha with rfl | ha
      · exact absurd rfl hb
      · simp only [storeSetItem, if_neg hb, storeGet]
        exact ih ha

/-! ### Further concrete fixtures for witnesses and counterexamples -/

/-- Callable with parameter `x : int` and return annotation `int` whose body
returns a `bool` value (runtime type a proper subclass of `int`); the body
emits effect `40` when it runs. -/
def subF : PyFunction where
  params := [⟨"x", none⟩]
  anns := [("x", 0), ("return", 0)]
  body := fun b =>
    match lookupStr b "x" with
    | some v => ([40], .ok (boolVal v.data))
    | none => ([], .error ⟨"NameError", "x"⟩)

/-- Callable with parameter `x : int` whose body always raises `ValueError`
after emitting effect `50`. -/
def raiseF : PyFunction where
  params := [⟨"x", none⟩]
  anns := [("x", 0)]
  body := fun _ => ([50], .error ⟨"ValueError", "boom"⟩)

/-- Callable `f(x, y: int = "...")`: the annotated parameter `y` declares a
default value whose runtime type is `str`, mismatching its own annotation;
the body emits effect `60` when it runs. -/
def dfltF : PyFunction where
  params := [⟨"x", none⟩, ⟨"y", some (strVal 7)⟩]
  anns := [("y", 0)]
  body := fun _ => ([60], .ok (intVal 0))

/-- Store fixture for the capture model: address `0` holds the empty dict. -/
def store0 : AnnStore := [(0, [])]

/-- Function object whose annotation dict lives at address `0`. -/
def funObj0 : FunObj := ⟨0⟩

/-- Parameter list of the capture-model fixture: a single parameter `x`. -/
def psRef : List Param := [⟨"x", none⟩]

/-- Body of the capture-model fixture: returns its argument unchanged and
emits effect `70` when it runs. -/
def bodyRef : Bindings → List Effect × Except PyError Value :=
  fun b =>
    match lookupStr b "x" with
    | some v => ([70], .ok v)
    | none => ([], .error ⟨"NameError", "x"⟩)

/-! ### The claims -/

/-- C1 (counterexample): the claim "arguments all matching their declared
parameter types implies the wrapper's result equals the direct call's" is
false on the code.  For the testsuite's `bar(x: int) -> int`, which returns
a `str`, the call `bar(1)` binds only values matching their declared
parameter types (`checkParams` finds no mismatch), yet the wrapper raises
the return-check `TypeError` while the direct call returns normally. -/
theorem spec_C1_pass_through_cex :
    getcallargs barF [intVal 1] [] = .ok [("x", intVal 1)]
    ∧ checkParams env0 barF.anns [("x", intVal 1)] = none
    ∧ directCall barF [intVal 1] [] = ([20], .ok (strVal 99))
    ∧ wrapperCall env0 barF [intVal 1] [] = ([20], .error (mkRetError 0 1))
    ∧ wrapperCall env0 barF [intVal 1] [] ≠ directCall barF [intVal 1] [] := by
  decide

/-- C1 (amended): for every callable and argument list whose bound values
are each an instance of (or of a subtype of) their declared annotation
types, and whose outcome also passes the declared return check when the body
returns normally, the wrapper yields an outcome (effect trace and result or
raised error) equal to calling the callable directly. -/
theorem spec_C1_pass_through (env : TypeEnv) (f : PyFunction) (args : List Value)
    (kwargs : List (String × Value)) (binding : Bindings)
    (hbind : getcallargs f args kwargs = .ok binding)
    (hargs : ∀ n v t, (n, v) ∈ binding → lookupStr f.anns n = some t →
      isinstance env v t = true)
    (hret : ∀ effs v t, f.body binding = (effs, .ok v) →
      lookupStr f.anns "return" = some t → isinstance env v t = true) :
    wrapperCall env f args kwargs = directCall f args kwargs := by
  have hcp : checkParams env f.anns binding = none :=
    (checkParams_eq_none_iff env f.anns binding).mpr hargs
  have hdc := directCall_eq_body f args kwargs binding hbind
  rcases hb : f.body binding with ⟨effs, res⟩
  cases res with
  | error e =>
    rw [hdc, hb]
    exact wrapper_of_body_error env f args kwargs binding effs e hbind hcp hb
  | ok r =>
    rw [hdc, hb]
    exact wrapper_of_body_ok env f args kwargs binding effs r hbind hcp hb
      (fun t hl => hret effs r t hb hl)

/-- C1 witness: on the matching call `qux(1, {...}, 3)` the wrapper and the
direct call agree. -/
theorem spec_C1_pass_through_witness :
    wrapperCall env0 quxF [intVal 1, dictVal 7, intVal 3] []
      = directCall quxF [intVal 1, dictVal 7, intVal 3] [] :=
  spec_C1_pass_through env0 quxF [intVal 1, dictVal 7, intVal 3] []
    [("x", intVal 1), ("y", dictVal 7), ("z", intVal 3)]
    (by decide)
    ((checkParams_eq_none_iff env0 quxF.anns
      [("x", intVal 1), ("y", dictVal 7), ("z", intVal 3)]).mp (by decide))
    (by
      intro effs v t _ hl
      have hnone : lookupStr quxF.anns "return" = none := by decide
      rw [hnone] at hl
      exact Option.noConfusion hl)

/-- C2: when the value bound to an annotated parameter is not an instance of
the declared type (nor of a subtype), the wrapper fails with the line-72
`TypeError` identifying a mismatching parameter's name, its expected type and
the value's actual runtime type, and the body never executes: the effect
trace of the call is empty. -/
theorem spec_C2_param_mismatch (env : TypeEnv) (f : PyFunction) (args : List Value)
    (kwargs : List (String × Value)) (binding : Bindings)
    (n : String) (v : Value) (t : Nat)
    (hbind : getcallargs f args kwargs = .ok binding)
    (hmem : (n, v) ∈ binding)
    (hann : lookupStr f.anns n = some t)
    (hbad : isinstance env v t = false) :
    ∃ n' v' t', (n', v') ∈ binding ∧ lookupStr f.anns n' = some t'
      ∧ isinstance env v' t' = false
      ∧ wrapperCall env f args kwargs = ([], .error (mkArgError n' t' v'.ty)) :=
  wrapper_fails_of_param_mismatch env f args kwargs binding n v t hbind hmem hann hbad

/-- C2 witness: `foo("a")` fails before the body runs, naming `x`, the
expected type `int` and the actual type `str`. -/
theorem spec_C2_param_mismatch_witness :
    ∃ n' v' t', (n', v') ∈ [("x", strVal 5)] ∧ lookupStr fooF.anns n' = some t'
      ∧ isinstance env0 v' t' = false
      ∧ wrapperCall env0 fooF [strVal 5] [] = ([], .error (mkArgError n' t' v'.ty)) :=
  spec_C2_param_mismatch env0 fooF [strVal 5] [] [("x", strVal 5)] "x" (strVal 5) 0
    (by decide) (by decide) (by decide) (by decide)

/-- C3: when every parameter check passes, the body executes and returns a
value whose runtime type is not the declared return type (nor a subtype),
the wrapper fails with the line-78 `TypeError`, and the failure carries the
body's full effect trace: the body's side effects have already happened and
are not rolled back. -/
theorem spec_C3_return_mismatch (env : TypeEnv) (f : PyFunction) (args : List Value)
    (kwargs : List (String × Value)) (binding : Bindings) (effs : List Effect)
    (v : Value) (t : Nat)
    (hbind : getcallargs f args kwargs = .ok binding)
    (hargs : ∀ n w u, (n, w) ∈ binding → lookupStr f.anns n = some u →
      isinstance env w u = true)
    (hbody : f.body binding = (effs, .ok v))
    (hret : lookupStr f.anns "return" = some t)
    (hbad : isinstance env v t = false) :
    wrapperCall env f args kwargs = (effs, .error (mkRetError t v.ty)) :=
  wrapper_of_ret_mismatch env f args kwargs binding effs v t hbind
    ((checkParams_eq_none_iff env f.anns binding).mpr hargs) hbody hret hbad

/-- C3 witness: `bar(1)` runs the body (effect `20` is emitted) and then
fails on the return check. -/
theorem spec_C3_return_mismatch_witness :
    wrapperCall env0 barF [intVal 1] [] = ([20], .error (mkRetError 0 (strVal 99).ty)) :=
  spec_C3_return_mismatch env0 barF [intVal 1] [] [("x", intVal 1)] [20] (strVal 99) 0
    (by decide)
    ((checkParams_eq_none_iff env0 barF.anns [("x", intVal 1)]).mp (by decide))
    (by decide) (by decide) (by decide)

/-- C4: the check is subtype-inclusive, not exact-type equality: when every
bound annotated value's runtime type is a subclass of its declared type
(properly or not), and likewise for the returned value, the wrapped call
succeeds and returns the body's result. -/
theorem spec_C4_subtype_accepted (env : TypeEnv) (f : PyFunction) (args : List Value)
    (kwargs : List (String × Value)) (binding : Bindings) (effs : List Effect) (r : Value)
    (hbind : getcallargs f args kwargs = .ok binding)
    (hsub : ∀ n v t, (n, v) ∈ binding → lookupStr f.anns n = some t →
      env.issub v.ty t = true)
    (hbody : f.body binding = (effs, .ok r))
    (hrsub : ∀ t, lookupStr f.anns "return" = some t → env.issub r.ty t = true) :
    wrapperCall env f args kwargs = (effs, .ok r) := by
  have hcp : checkParams env f.anns binding = none :=
    (checkParams_eq_none_iff env f.anns binding).mpr hsub
  exact wrapper_of_body_ok env f args kwargs binding effs r hbind hcp hbody hrsub

/-- C4 witness: `sub(True)` passes the parameter check and the return check
with `bool` values, whose runtime type id `2` is a proper subclass of the
declared `int` (id `0`). -/
theorem spec_C4_subtype_accepted_witness :
    (boolVal 1).ty ≠ 0 ∧ env0.issub (boolVal 1).ty 0 = true
    ∧ wrapperCall env0 subF [boolVal 1] [] = ([40], .ok (boolVal 1)) :=
  ⟨by decide, by decide,
    spec_C4_subtype_accepted env0 subF [boolVal 1] [] [("x", boolVal 1)] [40] (boolVal 1)
      (by decide)
      ((checkParams_eq_none_iff env0 subF.anns [("x", boolVal 1)]).mp (by decide))
      (by decide)
      (by
        intro t hl
        have hsome : lookupStr subF.anns "return" = some 0 := by decide
        rw [hsome] at hl
        injection hl with hl
        subst hl
        decide)⟩

/-- C5: a parameter with no annotation, and the return value when there is
no return annotation, are never checked: the check loop skips an entry whose
name has no annotation whatever its value, and with no `"return"` entry the
wrapper returns the body's result whatever its runtime type. -/
theorem spec_C5_optionality (env : TypeEnv) (f : PyFunction) (args : List Value)
    (kwargs : List (String × Value)) (binding : Bindings) (effs : List Effect) (r : Value)
    (m : String) (w : Value) (b : Bindings)
    (hun : lookupStr f.anns m = none)
    (hbind : getcallargs f args kwargs = .ok binding)
    (hargs : ∀ n v t, (n, v) ∈ binding → lookupStr f.anns n = some t →
      isinstance env v t = true)
    (hbody : f.body binding = (effs, .ok r))
    (hnoret : lookupStr f.anns "return" = none) :
    checkParams env f.anns ((m, w) :: b) = checkParams env f.anns b
    ∧ wrapperCall env f args kwargs = (effs, .ok r) := by
  constructor
  · simp only [checkParams, hun]
  · exact wrapper_of_body_ok env f args kwargs binding effs r hbind
      ((checkParams_eq_none_iff env f.anns binding).mpr hargs) hbody
      (fun t hl => by rw [hnoret] at hl; exact Option.noConfusion hl)

/-- C5 witness: `qux`'s unannotated `y` accepts a `dict` value (any value is
skipped by the check loop), and the unannotated return accepts the `str`
result. -/
theorem spec_C5_optionality_witness :
    checkParams env0 quxF.anns [("y", dictVal 7)] = checkParams env0 quxF.anns []
    ∧ wrapperCall env0 quxF [intVal 1, dictVal 7, intVal 3] [] = ([30], .ok (strVal 11)) :=
  spec_C5_optionality env0 quxF [intVal 1, dictVal 7, intVal 3] []
    [("x", intVal 1), ("y", dictVal 7), ("z", intVal 3)] [30] (strVal 11)
    "y" (dictVal 7) []
    (by decide) (by decide)
    ((checkParams_eq_none_iff env0 quxF.anns
      [("x", intVal 1), ("y", dictVal 7), ("z", intVal 3)]).mp (by decide))
    (by decide) (by decide)

/-- C6: when the parameter checks pass and the body itself raises, the
wrapper's outcome is exactly that error with the body's effect trace,
identical to calling the callable directly: the checker never suppresses,
wraps or translates errors raised by the wrapped callable. -/
theorem spec_C6_error_propagation (env : TypeEnv) (f : PyFunction) (args : List Value)
    (kwargs : List (String × Value)) (binding : Bindings) (effs : List Effect) (e : PyError)
    (hbind : getcallargs f args kwargs = .ok binding)
    (hargs : ∀ n v t, (n, v) ∈ binding → lookupStr f.anns n = some t →
      isinstance env v t = true)
    (hbody : f.body binding = (effs, .error e)) :
    wrapperCall env f args kwargs = (effs, .error e)
    ∧ wrapperCall env f args kwargs = directCall f args kwargs := by
  have h1 := wrapper_of_body_error env f args kwargs binding effs e hbind
    ((checkParams_eq_none_iff env f.anns binding).mpr hargs) hbody
  refine ⟨h1, ?_⟩
  rw [h1, directCall_eq_body f args kwargs binding hbind, hbody]

/-- C6 witness: a body raising `ValueError` propagates unchanged through the
wrapper, with its side effect (event `50`) preserved. -/
theorem spec_C6_error_propagation_witness :
    wrapperCall env0 raiseF [intVal 1] [] = ([50], .error ⟨"ValueError", "boom"⟩)
    ∧ wrapperCall env0 raiseF [intVal 1] [] = directCall raiseF [intVal 1] [] :=
  spec_C6_error_propagation env0 raiseF [intVal 1] [] [("x", intVal 1)] [50]
    ⟨"ValueError", "boom"⟩
    (by decide)
    ((checkParams_eq_none_iff env0 raiseF.anns [("x", intVal 1)]).mp (by decide))
    (by decide)

/-- C7 (counterexample): the claim "changes made to the callable's type
annotations after wrapping have no effect on which checks the wrapper
performs on later calls" is false on the code.  Line 65 captures a reference
to the annotation dict, not a snapshot: with an initially empty dict the
wrapper accepts a `str` argument, and after the in-place update
`F.__annotations__["x"] = int` the very same call fails the new check. -/
theorem spec_C7_snapshot_cex :
    wrapperCallRef env0 store0 (captureAnnRef funObj0) psRef bodyRef [strVal 5] []
      = ([70], .ok (strVal 5))
    ∧ wrapperCallRef env0 (storeSetItem store0 (captureAnnRef funObj0) "x" 0)
        (captureAnnRef funObj0) psRef bodyRef [strVal 5] []
      = ([], .error (mkArgError "x" 0 1))
    ∧ wrapperCallRef env0 (storeSetItem store0 (captureAnnRef funObj0) "x" 0)
        (captureAnnRef funObj0) psRef bodyRef [strVal 5] []
      ≠ wrapperCallRef env0 store0 (captureAnnRef funObj0) psRef bodyRef [strVal 5] [] := by
  decide

/-- C7 (amended): the annotation table is captured by reference at wrap time,
not copied: the wrapper consults the current contents of the dict whose
address it captured, so an in-place update of the callable's annotation dict
after wrapping is visible to the checks the wrapper performs on later calls. -/
theorem spec_C7_capture_by_reference (env : TypeEnv) (s : AnnStore) (f : FunObj)
    (k : String) (t : Nat) (ps : List Param)
    (body : Bindings → List Effect × Except PyError Value)
    (args : List Value) (kwargs : List (String × Value))
    (ha : captureAnnRef f ∈ s.map Prod.fst) :
    wrapperCallRef env (storeSetItem s (captureAnnRef f) k t) (captureAnnRef f)
        ps body args kwargs
      = wrapperCall env ⟨ps, dictSet (storeGet s (captureAnnRef f)) k t, body⟩ args kwargs := by
  unfold wrapperCallRef
  rw [storeGet_storeSetItem_self s (captureAnnRef f) k t ha]

/-- C7 amended-claim witness: the in-place update at the captured address is
what the wrapper reads on the next call. -/
theorem spec_C7_capture_by_reference_witness :
    wrapperCallRef env0 (storeSetItem store0 (captureAnnRef funObj0) "x" 0)
        (captureAnnRef funObj0) psRef bodyRef [strVal 5] []
      = wrapperCall env0 ⟨psRef, dictSet (storeGet store0 (captureAnnRef funObj0)) "x" 0,
          bodyRef⟩ [strVal 5] [] :=
  spec_C7_capture_by_reference env0 store0 funObj0 "x" 0 psRef bodyRef [strVal 5] []
    (by decide)

/-- C8: the wrapper's binding step fails exactly under the conditions on
which direct call binding fails - more positional arguments than declared
parameters, a keyword argument beyond the signature, an argument bound both
positionally and by keyword, or a required argument missing - and on such a
failure the wrapper and the direct call yield that same error, with the body
never invoked (empty effect trace). -/
theorem spec_C8_binding_error (f : PyFunction) (args : List Value)
    (kwargs : List (String × Value))
    (hnd : (kwargs.map Prod.fst).Nodup) :
    ((∃ e, getcallargs f args kwargs = .error e) ↔ specBindingFailure f args kwargs)
    ∧ ∀ env e, getcallargs f args kwargs = .error e →
        wrapperCall env f args kwargs = ([], .error e)
        ∧ directCall f args kwargs = ([], .error e) := by
  refine ⟨getcallargs_error_iff f args kwargs hnd, ?_⟩
  intro env e h
  constructor
  · unfold wrapperCall
    rw [h]
  · unfold directCall
    rw [h]

/-- C8 witness: `foo(1, 2)` supplies an extra positional argument; binding
fails for the wrapper and the direct call alike, before the body runs. -/
theorem spec_C8_binding_error_witness :
    ((∃ e, getcallargs fooF [intVal 1, intVal 2] [] = .error e)
      ↔ specBindingFailure fooF [intVal 1, intVal 2] [])
    ∧ ∀ env e, getcallargs fooF [intVal 1, intVal 2] [] = .error e →
        wrapperCall env fooF [intVal 1, intVal 2] [] = ([], .error e)
        ∧ directCall fooF [intVal 1, intVal 2] [] = ([], .error e) :=
  spec_C8_binding_error fooF [intVal 1, intVal 2] [] (by decide)

/-- C9 (implicit): every error the wrapper yields either has exception class
`TypeError` - which covers binding failures, parameter mismatches and return
mismatches alike, so a caller cannot tell them apart by class, nor apart
from a `TypeError` the body itself raises - or is an error the body raised. -/
theorem spec_C9_single_error_class (env : TypeEnv) (f : PyFunction)
    (args : List Value) (kwargs : List (String × Value)) (effs : List Effect) (e : PyError)
    (h : wrapperCall env f args kwargs = (effs, .error e)) :
    e.cls = "TypeError"
    ∨ ∃ binding, getcallargs f args kwargs = .ok binding
        ∧ f.body binding = (effs, .error e) := by
  unfold wrapperCall at h
  cases hbind : getcallargs f args kwargs with
  | error e' =>
    rw [hbind] at h
    injection h with h1 h2
    injection h2 with h2
    subst h2
    exact Or.inl (getcallargs_error_cls _ _ _ _ hbind)
  | ok binding =>
    rw [hbind] at h
    dsimp only at h
    cases hcp : checkParams env f.anns binding with
    | some e' =>
      rw [hcp] at h
      injection h with h1 h2
      injection h2 with h2
      subst h2
      obtain ⟨n, v, t, _, _, _, rfl⟩ := checkParams_eq_some env f.anns binding e' hcp
      exact Or.inl rfl
    | none =>
      rw [hcp] at h
      dsimp only at h
      have hdc := directCall_eq_body f args kwargs binding hbind
      rcases hb : f.body binding with ⟨effs', res⟩
      rw [hdc, hb] at h
      cases res with
      | error e' =>
        dsimp only at h
        injection h with h1 h2
        injection h2 with h2
        subst h1
        subst h2
        exact Or.inr ⟨binding, rfl, hb⟩
      | ok r =>
        dsimp only at h
        cases hl : lookupStr f.anns "return" with
        | some t =>
          rw [hl] at h
          dsimp only at h
          by_cases hi : isinstance env r t = true
          · rw [if_pos hi] at h
            injection h with h1 h2
            exact Except.noConfusion h2
          · rw [if_neg hi] at h
            injection h with h1 h2
            injection h2 with h2
            subst h2
            exact Or.inl rfl
        | none =>
          rw [hl] at h
          injection h with h1 h2
          exact Except.noConfusion h2

/-- C9 witness: on `foo("a")` the wrapper's error is of class `TypeError`. -/
theorem spec_C9_single_error_class_witness :
    (mkArgError "x" 0 1).cls = "TypeError"
    ∨ ∃ binding, getcallargs fooF [strVal 5] [] = .ok binding
        ∧ fooF.body binding = ([], .error (mkArgError "x" 0 1)) :=
  spec_C9_single_error_class env0 fooF [strVal 5] [] [] (mkArgError "x" 0 1) (by decide)

/-- C10 (implicit): declared defaults are type-checked too: when binding
succeeds and an annotated parameter with a default is supplied neither
positionally nor by keyword, the default is bound; if its runtime type fails
the annotation's check, the wrapper fails with the parameter `TypeError`
before the body runs (empty effect trace). -/
theorem spec_C10_default_checked (env : TypeEnv) (f : PyFunction) (args : List Value)
    (kwargs : List (String × Value)) (binding : Bindings) (n : String) (v : Value) (t : Nat)
    (hbind : getcallargs f args kwargs = .ok binding)
    (hp : (⟨n, some v⟩ : Param) ∈ f.params)
    (hpos : n ∉ (paramNames f.params).take args.length)
    (hkw : n ∉ kwargs.map Prod.fst)
    (hann : lookupStr f.anns n = some t)
    (hbad : isinstance env v t = false) :
    (n, v) ∈ binding
    ∧ ∃ n' v' t', (n', v') ∈ binding ∧ lookupStr f.anns n' = some t'
        ∧ isinstance env v' t' = false
        ∧ wrapperCall env f args kwargs = ([], .error (mkArgError n' t' v'.ty)) := by
  have hmem := getcallargs_default_mem f args kwargs binding n v hbind hp hpos hkw
  exact ⟨hmem,
    wrapper_fails_of_param_mismatch env f args kwargs binding n v t hbind hmem hann hbad⟩

/-- C10 witness: calling `dflt(1)` omits `y`, binds its `str` default against
the `int` annotation, and fails before the body runs. -/
theorem spec_C10_default_checked_witness :
    ("y", strVal 7) ∈ [("x", intVal 1), ("y", strVal 7)]
    ∧ ∃ n' v' t', (n', v') ∈ [("x", intVal 1), ("y", strVal 7)]
        ∧ lookupStr dfltF.anns n' = some t'
        ∧ isinstance env0 v' t' = false
        ∧ wrapperCall env0 dfltF [intVal 1] [] = ([], .error (mkArgError n' t' v'.ty)) :=
  spec_C10_default_checked env0 dfltF [intVal 1] [] [("x", intVal 1), ("y", strVal 7)]
    "y" (strVal 7) 0
    (by decide) (by decide) (by decide) (by decide) (by decide) (by decide)

end PyTypecheck
